import Mathlib

/-!
# Verification of the plastimatch HTTP-wrapper (`plastimatch-api.py`)

A shallow embedding of the path resolution, allow-list filtering,
configuration rendering and external-process invocation performed by the
source file, together with theorems settling the specification claims.

Conventions of the embedding:
* Python `dict[str, str]` values become association lists
  `List (String × String)`; a Python dict has unique keys and preserves
  insertion order, both of which association lists model directly.
* `pathlib.Path` values are modelled as plain strings; `Path.joinpath`
  is modelled by `joinPath` (an absolute right operand replaces the left,
  an empty right operand is dropped, otherwise the parts are joined with
  a slash).  Normalisation of duplicated or trailing slashes is not
  modelled; no input used below contains any.
* File-system writes and process spawns become an explicit `Effect`
  trace; raised Python exceptions become error values.
-/

/-- Boolean prefix test on character lists (structural, kernel-reducible). -/
def isPrefL : List Char → List Char → Bool
  | [], _ => true
  | _ :: _, [] => false
  | p :: ps, c :: cs => p == c && isPrefL ps cs

/-- `hasPrefixStr pre s` holds when the string `s` starts with `pre`. -/
def hasPrefixStr (pre s : String) : Bool :=
  isPrefL pre.data s.data

/-- First occurrence of `pat` in `s`: returns the part strictly before the
match and the part strictly after it, or `none` when `pat` does not occur. -/
def findSplit (pat : List Char) : List Char → Option (List Char × List Char)
  | [] => if isPrefL pat [] then some ([], []) else none
  | c :: cs =>
    if isPrefL pat (c :: cs) then some ([], (c :: cs).drop pat.length)
    else (findSplit pat cs).map (fun pr => (c :: pr.1, pr.2))

/-- Whether `pat` occurs as a substring (Python `pat in s`). -/
def containsL (pat s : List Char) : Bool :=
  (findSplit pat s).isSome

/-- Fuel-driven helper for `afterLast`. -/
def afterLastAux (pat : List Char) : Nat → List Char → List Char
  | 0, s => s
  | fuel + 1, s =>
    match findSplit pat s with
    | none => s
    | some (_, rest) => afterLastAux pat fuel rest

/-- The substring after the last occurrence of `pat`, i.e. Python
`s.split(pat)[-1]` (the whole string when `pat` does not occur). -/
def afterLast (pat s : List Char) : List Char :=
  afterLastAux pat s.length s

/-- `Path.joinpath` on the string model: an empty part is dropped
(pathlib drops empty path components), an absolute right operand
replaces the left operand, otherwise join with a slash. -/
def joinPath (a b : String) : String :=
  if b = "" then a
  else if hasPrefixStr "/" b then b
  else a ++ "/" ++ b

/-- The redundant client-side segment stripped by both constructors
(`Register_Inputs.__init__` and `Inputs_convert.__init__`). -/
def regSeg : String := "temp_data/registration/"

/-- `if "temp_data/registration/" in value: value = value.split(...)[-1]`. -/
def stripRedundant (v : String) : String :=
  if containsL regSeg.data v.data then String.mk (afterLast regSeg.data v.data)
  else v

/-- The constructor-time path rewriting of the source: strip the redundant
segment when present, then join onto
`Path(__file__).parent.joinpath("temp_data")`.  `scriptDir` stands for
`Path(__file__).parent`. -/
def resolvePath (scriptDir v : String) : String :=
  joinPath (joinPath scriptDir "temp_data") (stripRedundant v)

/-- `Register_Inputs.__init__`: every value of `global_params` is rewritten
in place by the path resolution; keys and their order are untouched.
`stage_params_list` is not touched by the constructor. -/
def resolveGlobals (scriptDir : String) (gp : List (String × String)) :
    List (String × String) :=
  gp.map (fun kv => (kv.1, resolvePath scriptDir kv.2))

/-- `pathlib.Path(p).parent` on the string model: the part before the last
slash (`"."` when there is no slash, `"/"` when the last slash is leading). -/
def lastSlashSplit : List Char → Option (List Char × List Char)
  | [] => none
  | c :: cs =>
    match lastSlashSplit cs with
    | some (pre, post) => some (c :: pre, post)
    | none => if c == '/' then some ([], cs) else none

/-- `Path(p).parent` for the path shapes that occur here (no trailing or
duplicated slashes). -/
def pathParent (p : String) : String :=
  match lastSlashSplit p.data with
  | none => "."
  | some ([], _) => "/"
  | some (pre, _) => String.mk pre

/-- The 15-key allow-list for `[Global]` parameters
(`global_param_possible_key_list` in the source). -/
def globalParamPossibleKeyList : List String := [
  "fixed", "moving", "fixed_roi",
  "moving_roi", "fixed_landmarks",
  "moving_landmarks", "warped_landmarks",
  "xform_in", "xform_out", "vf_out",
  "image_out", "img_out_fmt", "img_out_type",
  "resample_when_linear", "logfile"
]

/-- The allow-list for `[Stage]` parameters
(`stage_param_possible_key_list` in the source). -/
def stageParamPossibleKeyList : List String := [
  "fixed_landmarks", "moving_landmarks", "warped_landmarks", "xform_out",
  "xform", "vf_out", "img_out", "img_out_fmt", "img_out_type",
  "resample_when_linear", "background_max", "convergence_tol", "default_value",
  "demons_acceleration", "demons_filter_width", "demons_homogenization", "demons_std",
  "demons_gradient_type", "demons_smooth_update_field", "demons_std_update_field",
  "demons_smooth_deformation_field", "demons_std_deformation_field", "demons_step_length",
  "grad_tol", "grid_spac", "gridsearch_min_overlap", "histoeq", "landmark_stiffness",
  "lbfgsb_mmax", "mattes_fixed_minVal", "mattes_fixed_maxVal", "mattes_moving_minVal",
  "mattes_moving_maxVal", "max_its", "max_step", "metric", "mi_histogram_bins", "min_its",
  "min_step", "num_hist_levels_equal", "num_matching_points", "num_samples", "num_samples_pct",
  "num_substages", "optim", "optim_subtype", "pgtol", "regularization", "diffusion_penalty",
  "curvature_penalty", "linear_elastic_multiplier", "third_order_penalty",
  "total_displacement_penalty", "lame_coefficient_1", "lame_coefficient_2", "res",
  "res_mm", "res_mm_fixed", "res_mm_moving", "res_vox", "res_vox_fixed",
  "res_vox_moving", "rsg_grad_tol", "ss", "ss_fixed", "ss_moving",
  "threading", "thresh_mean_intensity", "translation_scale_factor"
]

/-- The filtering loop of `register`: copy into a fresh mapping exactly
those entries whose key is in the allow-list, in input order. -/
def filterParams (allowed : List String) (ps : List (String × String)) :
    List (String × String) :=
  ps.filter (fun kv => allowed.contains kv.1)

/-- Concatenation of a list of strings (specification helper). -/
def strConcat : List String → String
  | [] => ""
  | s :: t => s ++ strConcat t

/-- One rendered line, the f-string `f"{key}={value}\n"`. -/
def kvLine (kv : String × String) : String :=
  kv.1 ++ "=" ++ kv.2 ++ "\n"

/-- The `param_txt` accumulation of `register`: starts with `"[Global]\n"`,
appends one `key=value` line per filtered global entry, a blank line, then
for each stage `"[Stage]\n"`, its `key=value` lines and a blank line. -/
def renderParamTxt (gp : List (String × String))
    (stages : List (List (String × String))) : String :=
  let txt := (gp.foldl (fun acc kv => acc ++ kvLine kv) "[Global]\n") ++ "\n"
  stages.foldl (fun acc st =>
    (st.foldl (fun a kv => a ++ kvLine kv) (acc ++ "[Stage]\n")) ++ "\n") txt

/-- Observable side effects of a request: directory creation
(`mkdir(parents=True, exist_ok=True)`), a fresh (truncating, mode `"w"`)
file write, and a child-process spawn. -/
inductive Effect where
  | mkdirParents (dir : String)
  | writeFile (path content : String)
  | spawn (argv : List String)
deriving Repr, DecidableEq

/-- Python exceptions relevant to the endpoints. -/
inductive ApiError where
  | keyError (key : String)
  | valueError (msg : String)
deriving Repr, DecidableEq

/-- The body of `register` up to and including the process spawn, as an
effect trace paired with the raised error, if any.  The validation of the
three required keys happens before any effect is emitted. -/
def registerRun (gp : List (String × String))
    (sps : List (List (String × String))) : List Effect × Option ApiError :=
  let fgp := filterParams globalParamPossibleKeyList gp
  if !((fgp.map Prod.fst).contains "fixed") then
    ([], some (.valueError "The fixed image is required."))
  else if !((fgp.map Prod.fst).contains "moving") then
    ([], some (.valueError "The moving image is required."))
  else if !((fgp.map Prod.fst).contains "image_out") then
    ([], some (.valueError "The output image is required."))
  else
    let fsps := sps.map (filterParams stageParamPossibleKeyList)
    let outDir := pathParent ((fgp.lookup "image_out").getD "")
    let parmTxtPath := joinPath outDir "parm.txt"
    let paramTxt := renderParamTxt fgp fsps
    ([Effect.mkdirParents outDir,
      Effect.writeFile parmTxtPath paramTxt,
      Effect.spawn ["plastimatch", "register", parmTxtPath]], none)

/-- The `/plastimatch_register` handler body: it prints
`global_params["fixed"]`, `["moving"]`, `["image_out"]` and `["vf_out"]`
(each a `KeyError` when absent) before calling `register`. -/
def register_api (gp : List (String × String))
    (sps : List (List (String × String))) : List Effect × Option ApiError :=
  match gp.lookup "fixed" with
  | none => ([], some (.keyError "fixed"))
  | some _ =>
    match gp.lookup "moving" with
    | none => ([], some (.keyError "moving"))
    | some _ =>
      match gp.lookup "image_out" with
      | none => ([], some (.keyError "image_out"))
      | some _ =>
        match gp.lookup "vf_out" with
        | none => ([], some (.keyError "vf_out"))
        | some _ => registerRun gp sps

/-- The full `/plastimatch_register` pipeline: the `Register_Inputs`
constructor resolves the global parameter values (and only those), then
the handler runs. -/
def registerPipeline (scriptDir : String) (gp : List (String × String))
    (sps : List (List (String × String))) : List Effect × Option ApiError :=
  register_api (resolveGlobals scriptDir gp) sps

/-- Python truthiness of the optional `xf` argument (`if xf:`):
`None` and the empty string are falsy. -/
def pyTruthy : Option String → Bool
  | none => false
  | some s => s != ""

/-- The argument vector built by `convert`. -/
def convertCommand (pthInput pthOutput : String) (xf : Option String) :
    List String :=
  (["plastimatch", "convert", pthInput, pthOutput]) ++
    (if pyTruthy xf then ["--xf", xf.getD ""] else [])

/-- The `/plastimatch_convert` pipeline: the `Inputs_convert` constructor
resolves every supplied string value, then `convert` builds the command. -/
def convert_api (scriptDir pthInput pthOutput : String) (xf : Option String) :
    List String :=
  convertCommand (resolvePath scriptDir pthInput)
    (resolvePath scriptDir pthOutput) (xf.map (resolvePath scriptDir))

/-- `subprocess.run(command, check=True)`: raises `CalledProcessError`
exactly when the child exits with a non-zero status.  The exit code of the
external binary is a parameter of the model. -/
inductive PyExc where
  | calledProcessError (code : Int)
deriving Repr, DecidableEq

/-- Printable text of an exception (`print(e)` / the f-string in `convert`). -/
def pyExcMessage : PyExc → String
  | .calledProcessError _ => "CalledProcessError"

/-- `subprocess.run(command, check=True)` as a function of the exit code. -/
def subprocessRunCheck (exitCode : Int) : Except PyExc Unit :=
  if exitCode == 0 then .ok ()
  else .error (.calledProcessError exitCode)

/-- The `try/except Exception` around the spawn in `register`: the error is
printed and swallowed, the handler returns `None` either way.  Result:
(printed lines, outcome), where `.ok none` means "returned, no body". -/
def registerInvoke (exitCode : Int) : List String × Except PyExc (Option String) :=
  match subprocessRunCheck exitCode with
  | .ok _ => ([], .ok none)
  | .error e => ([pyExcMessage e], .ok none)

/-- The `try/except subprocess.CalledProcessError` around the spawn in
`convert`: the error is printed with a prefix and swallowed. -/
def convertInvoke (exitCode : Int) : List String × Except PyExc (Option String) :=
  match subprocessRunCheck exitCode with
  | .ok _ => ([], .ok none)
  | .error (.calledProcessError c) =>
    (["Error occurred while running plastimatch convert: " ++
      pyExcMessage (.calledProcessError c)], .ok none)

/-! ## Helper lemmas -/

theorem append_ne_empty_right (a b : String) (hb : b ≠ "") : a ++ b ≠ "" := by
  intro h
  apply hb
  have hd : (a ++ b).data = ([] : List Char) := by rw [h]
  rw [String.data_append] at hd
  have hbd : b.data = [] := (List.append_eq_nil.mp hd).2
  calc b = String.mk b.data := rfl
    _ = String.mk [] := by rw [hbd]

theorem joinPath_of_rel (a b : String) (hb : b ≠ "")
    (habs : hasPrefixStr "/" b = false) : joinPath a b = a ++ "/" ++ b := by
  unfold joinPath
  rw [if_neg hb, if_neg (by simp [habs])]

theorem tempRoot_eq (sd : String) :
    joinPath sd "temp_data" = sd ++ "/" ++ "temp_data" :=
  joinPath_of_rel sd "temp_data" (by decide) (by decide)

theorem tempRoot_ne_empty (sd : String) : joinPath sd "temp_data" ≠ "" := by
  rw [tempRoot_eq]
  exact append_ne_empty_right _ _ (by decide)

theorem joinPath_ne_empty (a b : String) (ha : a ≠ "") : joinPath a b ≠ "" := by
  unfold joinPath
  by_cases hb : b = ""
  · simpa [hb] using ha
  · rw [if_neg hb]
    by_cases habs : hasPrefixStr "/" b = true
    · rw [if_pos habs]; exact hb
    · rw [if_neg habs]; exact append_ne_empty_right _ _ hb

theorem resolvePath_ne_empty (sd v : String) : resolvePath sd v ≠ "" :=
  joinPath_ne_empty _ _ (tempRoot_ne_empty sd)

theorem isPrefL_append : ∀ (p s t : List Char),
    isPrefL p s = true → isPrefL p (s ++ t) = true
  | [], _, _, _ => rfl
  | _ :: _, [], _, h => by simp [isPrefL] at h
  | c :: ps, d :: ds, t, h => by
    simp only [isPrefL, Bool.and_eq_true] at h ⊢
    exact ⟨h.1, isPrefL_append ps ds t h.2⟩

theorem hasPrefixStr_append (pre a b : String)
    (h : hasPrefixStr pre a = true) : hasPrefixStr pre (a ++ b) = true := by
  unfold hasPrefixStr at *
  rw [String.data_append]
  exact isPrefL_append _ _ _ h

theorem ne_empty_of_abs (s : String) (h : hasPrefixStr "/" s = true) :
    s ≠ "" := by
  intro he
  rw [he] at h
  exact absurd h (by decide)

theorem hasPrefix_joinPath (a b : String) (ha : hasPrefixStr "/" a = true) :
    hasPrefixStr "/" (joinPath a b) = true := by
  unfold joinPath
  by_cases hb : b = ""
  · simpa [hb] using ha
  · rw [if_neg hb]
    by_cases habs : hasPrefixStr "/" b = true
    · rw [if_pos habs]; exact habs
    · rw [if_neg habs]
      exact hasPrefixStr_append _ _ _ (hasPrefixStr_append _ _ _ ha)

theorem resolvePath_abs (sd v : String) (h : hasPrefixStr "/" sd = true) :
    hasPrefixStr "/" (resolvePath sd v) = true := by
  unfold resolvePath
  exact hasPrefix_joinPath _ _ (hasPrefix_joinPath _ _ h)

theorem foldl_append_line {α : Type} (f : α → String) :
    ∀ (l : List α) (init : String),
      l.foldl (fun acc x => acc ++ f x) init = init ++ strConcat (l.map f)
  | [], init => by simp [strConcat]
  | x :: t, init => by
    simp only [List.foldl, List.map, strConcat]
    rw [foldl_append_line f t (init ++ f x), String.append_assoc]

theorem foldl_stage_sections :
    ∀ (stages : List (List (String × String))) (txt : String),
      stages.foldl (fun acc st =>
          (st.foldl (fun a kv => a ++ kvLine kv) (acc ++ "[Stage]\n")) ++ "\n") txt =
        txt ++ strConcat (stages.map (fun st =>
          "[Stage]\n" ++ strConcat (st.map kvLine) ++ "\n"))
  | [], txt => by simp [strConcat]
  | st :: rest, txt => by
    simp only [List.foldl, List.map, strConcat]
    rw [foldl_append_line kvLine st (txt ++ "[Stage]\n"),
      foldl_stage_sections rest]
    simp [String.append_assoc]

theorem lookup_filterParams (A : List String) (k : String) :
    ∀ ps : List (String × String),
      (filterParams A ps).lookup k = if A.contains k then ps.lookup k else none
  | [] => by by_cases hA : k ∈ A <;> simp [filterParams, hA]
  | (a, b) :: t => by
    have ih := lookup_filterParams A k t
    by_cases hk : k = a
    · subst hk
      by_cases hA : k ∈ A <;>
        simp [filterParams, List.filter_cons, List.lookup, hA] at ih ⊢ <;>
          exact ih
    · have hb := beq_false_of_ne hk
      by_cases hA : a ∈ A <;> by_cases hAk : k ∈ A <;>
        simp [filterParams, List.filter_cons, List.lookup, hA, hAk, hb] at ih ⊢ <;>
          exact ih

theorem exists_mem_of_lookup_isSome (k : String) :
    ∀ ps : List (String × String), (ps.lookup k).isSome = true →
      ∃ v, (k, v) ∈ ps
  | [], h => by simp [List.lookup] at h
  | (a, b) :: t, h => by
    by_cases hk : k = a
    · exact ⟨b, by simp [hk]⟩
    · simp only [List.lookup, beq_false_of_ne hk] at h
      obtain ⟨v, hv⟩ := exists_mem_of_lookup_isSome k t h
      exact ⟨v, List.mem_cons_of_mem _ hv⟩

theorem keys_filterParams_contains (A : List String) (k : String)
    (hA : A.contains k = true) (ps : List (String × String))
    (h : (ps.lookup k).isSome = true) :
    ((filterParams A ps).map Prod.fst).contains k = true := by
  obtain ⟨v, hv⟩ := exists_mem_of_lookup_isSome k ps h
  have hmem : k ∈ A := by simpa using hA
  simp [filterParams]
  exact ⟨⟨v, hv⟩, hmem⟩

theorem lookup_resolveGlobals (sd k : String) :
    ∀ gp : List (String × String),
      (resolveGlobals sd gp).lookup k = (gp.lookup k).map (resolvePath sd)
  | [] => by simp [resolveGlobals]
  | (a, b) :: t => by
    have ih := lookup_resolveGlobals sd k t
    by_cases hk : k = a
    · subst hk
      simp [resolveGlobals, List.lookup]
    · simp [resolveGlobals, List.lookup, beq_false_of_ne hk] at ih ⊢
      exact ih

theorem registerRun_success (gp : List (String × String))
    (sps : List (List (String × String)))
    (h1 : ((filterParams globalParamPossibleKeyList gp).map Prod.fst).contains
      "fixed" = true)
    (h2 : ((filterParams globalParamPossibleKeyList gp).map Prod.fst).contains
      "moving" = true)
    (h3 : ((filterParams globalParamPossibleKeyList gp).map Prod.fst).contains
      "image_out" = true) :
    registerRun gp sps =
      ([Effect.mkdirParents (pathParent
          (((filterParams globalParamPossibleKeyList gp).lookup "image_out").getD "")),
        Effect.writeFile
          (joinPath (pathParent
            (((filterParams globalParamPossibleKeyList gp).lookup "image_out").getD ""))
            "parm.txt")
          (renderParamTxt (filterParams globalParamPossibleKeyList gp)
            (sps.map (filterParams stageParamPossibleKeyList))),
        Effect.spawn ["plastimatch", "register",
          joinPath (pathParent
            (((filterParams globalParamPossibleKeyList gp).lookup "image_out").getD ""))
            "parm.txt"]], none) := by
  simp only [registerRun]
  rw [h1, h2, h3]
  simp

theorem stripRedundant_of_not_contains (v : String)
    (h : containsL regSeg.data v.data = false) : stripRedundant v = v := by
  unfold stripRedundant
  rw [if_neg (by simp [h])]

theorem joinPath_of_abs (a b : String) (hb : b ≠ "")
    (habs : hasPrefixStr "/" b = true) : joinPath a b = b := by
  unfold joinPath
  rw [if_neg hb, if_pos habs]

theorem isPrefL_refl : ∀ p : List Char, isPrefL p p = true
  | [] => rfl
  | c :: cs => by simp [isPrefL, isPrefL_refl cs]

theorem hasPrefixStr_refl (s : String) : hasPrefixStr s s = true :=
  isPrefL_refl s.data

/-! ## Claim theorems -/

/-- Claim C1: when any of the keys "fixed", "moving", "image_out" is absent
from the allow-list-filtered global mapping, `register` stops with a
validation `ValueError` and its effect trace is empty, so no directory is
created, no `parm.txt` is written and no external process is spawned. -/
theorem register_missing_required_errors_before_effects
    (gp : List (String × String)) (sps : List (List (String × String)))
    (h : ((filterParams globalParamPossibleKeyList gp).map Prod.fst).contains
        "fixed" = false ∨
      ((filterParams globalParamPossibleKeyList gp).map Prod.fst).contains
        "moving" = false ∨
      ((filterParams globalParamPossibleKeyList gp).map Prod.fst).contains
        "image_out" = false) :
    ∃ msg, registerRun gp sps = ([], some (ApiError.valueError msg)) := by
  rcases h with h | h | h
  · exact ⟨"The fixed image is required.", by
      simp only [registerRun]; rw [h]; simp⟩
  · cases hf : ((filterParams globalParamPossibleKeyList gp).map Prod.fst).contains "fixed"
    · exact ⟨"The fixed image is required.", by
        simp only [registerRun]; rw [hf]; simp⟩
    · exact ⟨"The moving image is required.", by
        simp only [registerRun]; rw [hf, h]; simp⟩
  · cases hf : ((filterParams globalParamPossibleKeyList gp).map Prod.fst).contains "fixed"
    · exact ⟨"The fixed image is required.", by
        simp only [registerRun]; rw [hf]; simp⟩
    · cases hm : ((filterParams globalParamPossibleKeyList gp).map Prod.fst).contains "moving"
      · exact ⟨"The moving image is required.", by
          simp only [registerRun]; rw [hf, hm]; simp⟩
      · exact ⟨"The output image is required.", by
          simp only [registerRun]; rw [hf, hm, h]; simp⟩

/-- Witness for C1: a global mapping without "fixed" makes `register` fail
with an empty effect trace. -/
theorem register_missing_required_errors_before_effects_witness :
    (((filterParams globalParamPossibleKeyList [("moving", "b.nrrd")]).map
        Prod.fst).contains "fixed" = false) ∧
    ∃ msg, registerRun [("moving", "b.nrrd")] [] =
      ([], some (ApiError.valueError msg)) :=
  ⟨by decide,
    register_missing_required_errors_before_effects [("moving", "b.nrrd")] []
      (Or.inl (by decide))⟩

/-- Claim C2: the rendered configuration text is one `[Global]` section with
one key=value line per global entry in insertion order terminated by a blank
line, then one `[Stage]` section per stage entry, each terminated by a blank
line; and on the concrete example of the specification it equals the quoted
text verbatim. -/
theorem renderParamTxt_sections (gp : List (String × String))
    (stages : List (List (String × String))) :
    renderParamTxt gp stages =
      "[Global]\n" ++ strConcat (gp.map kvLine) ++ "\n" ++
        strConcat (stages.map (fun st =>
          "[Stage]\n" ++ strConcat (st.map kvLine) ++ "\n")) ∧
    renderParamTxt
      [("fixed", "a.nrrd"), ("moving", "b.nrrd"), ("image_out", "c.nrrd")]
      [[("xform", "bspline")]] =
      "[Global]\nfixed=a.nrrd\nmoving=b.nrrd\nimage_out=c.nrrd\n\n[Stage]\nxform=bspline\n\n" := by
  constructor
  · simp only [renderParamTxt]
    rw [foldl_append_line kvLine gp "[Global]\n", foldl_stage_sections]
  · decide

/-- Claim C3: both filtering passes of `register` keep exactly the entries
whose key is in the respective allow-list, values unchanged, silently
dropping every other key; the global allow-list has 15 keys. -/
theorem filterParams_allowlist_characterization (k v : String)
    (ps : List (String × String)) :
    globalParamPossibleKeyList.length = 15 ∧
    ((k, v) ∈ filterParams globalParamPossibleKeyList ps ↔
      globalParamPossibleKeyList.contains k = true ∧ (k, v) ∈ ps) ∧
    ((k, v) ∈ filterParams stageParamPossibleKeyList ps ↔
      stageParamPossibleKeyList.contains k = true ∧ (k, v) ∈ ps) ∧
    ((filterParams globalParamPossibleKeyList ps).lookup k =
      if globalParamPossibleKeyList.contains k then ps.lookup k else none) ∧
    ((filterParams stageParamPossibleKeyList ps).lookup k =
      if stageParamPossibleKeyList.contains k then ps.lookup k else none) :=
  ⟨by decide,
    by simp [filterParams, List.mem_filter]; tauto,
    by simp [filterParams, List.mem_filter]; tauto,
    lookup_filterParams _ k ps,
    lookup_filterParams _ k ps⟩

/-- Counterexample to claim C4: resolving the relative path
"registration/x.nrrd" and resolving the result again give different paths,
because the first resolution manufactures the redundant
"temp_data/registration/" segment that the second resolution strips. -/
theorem resolvePath_not_idempotent_cex :
    resolvePath "/srv" (resolvePath "/srv" "registration/x.nrrd") ≠
      resolvePath "/srv" "registration/x.nrrd" := by decide

/-- Claim C4 as amended: path resolution is idempotent on every input whose
once-resolved path does not contain the "temp_data/registration/" segment
(the script directory being absolute). -/
theorem resolvePath_idempotent_of_no_segment (sd v : String)
    (habs : hasPrefixStr "/" sd = true)
    (hseg : containsL regSeg.data (resolvePath sd v).data = false) :
    resolvePath sd (resolvePath sd v) = resolvePath sd v := by
  show joinPath (joinPath sd "temp_data") (stripRedundant (resolvePath sd v)) =
    resolvePath sd v
  rw [stripRedundant_of_not_contains _ hseg,
    joinPath_of_abs _ _ (resolvePath_ne_empty sd v) (resolvePath_abs sd v habs)]

/-- Witness for the amended C4. -/
theorem resolvePath_idempotent_of_no_segment_witness :
    (hasPrefixStr "/" "/srv" = true ∧
      containsL regSeg.data (resolvePath "/srv" "x.nrrd").data = false) ∧
    resolvePath "/srv" (resolvePath "/srv" "x.nrrd") =
      resolvePath "/srv" "x.nrrd" :=
  ⟨⟨by decide, by decide⟩,
    resolvePath_idempotent_of_no_segment "/srv" "x.nrrd" (by decide) (by decide)⟩

/-- Counterexample to claim C5: an absolute user-supplied path is returned
unchanged by the resolver and is not under the configured root directory. -/
theorem resolvePath_escapes_root_cex :
    resolvePath "/srv" "/etc/passwd" = "/etc/passwd" ∧
    hasPrefixStr (joinPath "/srv" "temp_data") (resolvePath "/srv" "/etc/passwd") =
      false :=
  ⟨by decide, by decide⟩

/-- Claim C5 as amended: for every input whose stripped value is non-empty
and relative, the resolver returns the root followed by a slash and the
stripped value, hence a path under the configured root, absolute whenever
the script directory is absolute. -/
theorem resolvePath_under_root_of_relative (sd v : String)
    (hne : stripRedundant v ≠ "")
    (hrel : hasPrefixStr "/" (stripRedundant v) = false) :
    resolvePath sd v = joinPath sd "temp_data" ++ "/" ++ stripRedundant v ∧
    hasPrefixStr (joinPath sd "temp_data" ++ "/") (resolvePath sd v) = true ∧
    (hasPrefixStr "/" sd = true →
      hasPrefixStr "/" (resolvePath sd v) = true) := by
  have he : resolvePath sd v = joinPath sd "temp_data" ++ "/" ++ stripRedundant v := by
    show joinPath (joinPath sd "temp_data") (stripRedundant v) = _
    exact joinPath_of_rel _ _ hne hrel
  refine ⟨he, ?_, fun h => resolvePath_abs sd v h⟩
  rw [he]
  exact hasPrefixStr_append _ _ _ (hasPrefixStr_refl _)

/-- Witness for the amended C5. -/
theorem resolvePath_under_root_of_relative_witness :
    (stripRedundant "sub/img.nrrd" ≠ "" ∧
      hasPrefixStr "/" (stripRedundant "sub/img.nrrd") = false) ∧
    (resolvePath "/srv" "sub/img.nrrd" =
        joinPath "/srv" "temp_data" ++ "/" ++ stripRedundant "sub/img.nrrd" ∧
      hasPrefixStr (joinPath "/srv" "temp_data" ++ "/")
        (resolvePath "/srv" "sub/img.nrrd") = true ∧
      (hasPrefixStr "/" "/srv" = true →
        hasPrefixStr "/" (resolvePath "/srv" "sub/img.nrrd") = true)) :=
  ⟨⟨by decide, by decide⟩,
    resolvePath_under_root_of_relative "/srv" "sub/img.nrrd" (by decide) (by decide)⟩

/-- Counterexample to claim C6: in a full register request the stage
parameter `img_out`, which names a file, reaches the rendered configuration
text verbatim as "img_out=scan.nrrd", although resolving "scan.nrrd" against
the working directory yields a different path: stage parameters are never
resolved. -/
theorem stage_params_rendered_unresolved_cex :
    registerPipeline "/srv"
      [("fixed", "a.nrrd"), ("moving", "b.nrrd"), ("image_out", "c.nrrd"),
        ("vf_out", "d.nrrd")]
      [[("img_out", "scan.nrrd")]] =
    ([Effect.mkdirParents "/srv/temp_data",
      Effect.writeFile "/srv/temp_data/parm.txt"
        "[Global]\nfixed=/srv/temp_data/a.nrrd\nmoving=/srv/temp_data/b.nrrd\nimage_out=/srv/temp_data/c.nrrd\nvf_out=/srv/temp_data/d.nrrd\n\n[Stage]\nimg_out=scan.nrrd\n\n",
      Effect.spawn ["plastimatch", "register", "/srv/temp_data/parm.txt"]],
      none) ∧
    resolvePath "/srv" "scan.nrrd" ≠ "scan.nrrd" :=
  ⟨by decide, by decide⟩

/-- Claim C6 as amended: only the global parameters are resolved against the
working directory before rendering; the stage parameters are rendered
exactly as supplied. -/
theorem registerPipeline_resolves_only_globals (sd : String)
    (gp : List (String × String)) (sps : List (List (String × String)))
    (h1 : (gp.lookup "fixed").isSome = true)
    (h2 : (gp.lookup "moving").isSome = true)
    (h3 : (gp.lookup "image_out").isSome = true)
    (h4 : (gp.lookup "vf_out").isSome = true) :
    registerPipeline sd gp sps =
      ([Effect.mkdirParents (pathParent
          (((filterParams globalParamPossibleKeyList
            (resolveGlobals sd gp)).lookup "image_out").getD "")),
        Effect.writeFile
          (joinPath (pathParent
            (((filterParams globalParamPossibleKeyList
              (resolveGlobals sd gp)).lookup "image_out").getD "")) "parm.txt")
          (renderParamTxt
            (filterParams globalParamPossibleKeyList (resolveGlobals sd gp))
            (sps.map (filterParams stageParamPossibleKeyList))),
        Effect.spawn ["plastimatch", "register",
          joinPath (pathParent
            (((filterParams globalParamPossibleKeyList
              (resolveGlobals sd gp)).lookup "image_out").getD "")) "parm.txt"]],
        none) := by
  have hr1 : ((resolveGlobals sd gp).lookup "fixed").isSome = true := by
    rw [lookup_resolveGlobals]; simpa using h1
  have hr2 : ((resolveGlobals sd gp).lookup "moving").isSome = true := by
    rw [lookup_resolveGlobals]; simpa using h2
  have hr3 : ((resolveGlobals sd gp).lookup "image_out").isSome = true := by
    rw [lookup_resolveGlobals]; simpa using h3
  have hr4 : ((resolveGlobals sd gp).lookup "vf_out").isSome = true := by
    rw [lookup_resolveGlobals]; simpa using h4
  have hg1 := keys_filterParams_contains globalParamPossibleKeyList "fixed"
    (by decide) _ hr1
  have hg2 := keys_filterParams_contains globalParamPossibleKeyList "moving"
    (by decide) _ hr2
  have hg3 := keys_filterParams_contains globalParamPossibleKeyList "image_out"
    (by decide) _ hr3
  obtain ⟨vf, hvf⟩ := Option.isSome_iff_exists.mp hr1
  obtain ⟨vm, hvm⟩ := Option.isSome_iff_exists.mp hr2
  obtain ⟨vo, hvo⟩ := Option.isSome_iff_exists.mp hr3
  obtain ⟨vv, hvv⟩ := Option.isSome_iff_exists.mp hr4
  simp only [registerPipeline, register_api, hvf, hvm, hvo, hvv]
  exact registerRun_success _ _ hg1 hg2 hg3

/-- Witness for the amended C6. -/
theorem registerPipeline_resolves_only_globals_witness :
    ((([("fixed", "f"), ("moving", "m"), ("image_out", "o"), ("vf_out", "v")] :
        List (String × String)).lookup "fixed").isSome = true ∧
      (([("fixed", "f"), ("moving", "m"), ("image_out", "o"), ("vf_out", "v")] :
        List (String × String)).lookup "moving").isSome = true ∧
      (([("fixed", "f"), ("moving", "m"), ("image_out", "o"), ("vf_out", "v")] :
        List (String × String)).lookup "image_out").isSome = true ∧
      (([("fixed", "f"), ("moving", "m"), ("image_out", "o"), ("vf_out", "v")] :
        List (String × String)).lookup "vf_out").isSome = true) ∧
    registerPipeline "/app"
      [("fixed", "f"), ("moving", "m"), ("image_out", "o"), ("vf_out", "v")] [] =
      ([Effect.mkdirParents (pathParent
          (((filterParams globalParamPossibleKeyList
            (resolveGlobals "/app"
              [("fixed", "f"), ("moving", "m"), ("image_out", "o"),
                ("vf_out", "v")])).lookup "image_out").getD "")),
        Effect.writeFile
          (joinPath (pathParent
            (((filterParams globalParamPossibleKeyList
              (resolveGlobals "/app"
                [("fixed", "f"), ("moving", "m"), ("image_out", "o"),
                  ("vf_out", "v")])).lookup "image_out").getD "")) "parm.txt")
          (renderParamTxt
            (filterParams globalParamPossibleKeyList
              (resolveGlobals "/app"
                [("fixed", "f"), ("moving", "m"), ("image_out", "o"),
                  ("vf_out", "v")]))
            (([] : List (List (String × String))).map
              (filterParams stageParamPossibleKeyList))),
        Effect.spawn ["plastimatch", "register",
          joinPath (pathParent
            (((filterParams globalParamPossibleKeyList
              (resolveGlobals "/app"
                [("fixed", "f"), ("moving", "m"), ("image_out", "o"),
                  ("vf_out", "v")])).lookup "image_out").getD "")) "parm.txt"]],
        none) :=
  ⟨⟨by decide, by decide, by decide, by decide⟩,
    registerPipeline_resolves_only_globals "/app"
      [("fixed", "f"), ("moving", "m"), ("image_out", "o"), ("vf_out", "v")] []
      (by decide) (by decide) (by decide) (by decide)⟩

/-- Claim C7: for a valid request, `register` creates the parent directory
of the requested output image (with intermediate parents), writes the
rendered configuration fresh to `parm.txt` inside it, and does nothing else
to the file system. -/
theorem register_persists_parm_txt (gp : List (String × String))
    (sps : List (List (String × String)))
    (h1 : ((filterParams globalParamPossibleKeyList gp).map Prod.fst).contains
      "fixed" = true)
    (h2 : ((filterParams globalParamPossibleKeyList gp).map Prod.fst).contains
      "moving" = true)
    (h3 : ((filterParams globalParamPossibleKeyList gp).map Prod.fst).contains
      "image_out" = true) :
    registerRun gp sps =
      ([Effect.mkdirParents (pathParent ((gp.lookup "image_out").getD "")),
        Effect.writeFile
          (joinPath (pathParent ((gp.lookup "image_out").getD "")) "parm.txt")
          (renderParamTxt (filterParams globalParamPossibleKeyList gp)
            (sps.map (filterParams stageParamPossibleKeyList))),
        Effect.spawn ["plastimatch", "register",
          joinPath (pathParent ((gp.lookup "image_out").getD "")) "parm.txt"]],
        none) := by
  have hl : (filterParams globalParamPossibleKeyList gp).lookup "image_out" =
      gp.lookup "image_out" := by
    rw [lookup_filterParams, if_pos (by decide)]
  rw [registerRun_success gp sps h1 h2 h3, hl]

/-- Witness for C7. -/
theorem register_persists_parm_txt_witness :
    (((filterParams globalParamPossibleKeyList
        [("fixed", "/d/f.nrrd"), ("moving", "/d/m.nrrd"),
          ("image_out", "/d/o.nrrd")]).map Prod.fst).contains "fixed" = true ∧
      ((filterParams globalParamPossibleKeyList
        [("fixed", "/d/f.nrrd"), ("moving", "/d/m.nrrd"),
          ("image_out", "/d/o.nrrd")]).map Prod.fst).contains "moving" = true ∧
      ((filterParams globalParamPossibleKeyList
        [("fixed", "/d/f.nrrd"), ("moving", "/d/m.nrrd"),
          ("image_out", "/d/o.nrrd")]).map Prod.fst).contains "image_out" = true) ∧
    registerRun
      [("fixed", "/d/f.nrrd"), ("moving", "/d/m.nrrd"), ("image_out", "/d/o.nrrd")]
      [[("xform", "bspline")]] =
      ([Effect.mkdirParents "/d",
        Effect.writeFile "/d/parm.txt"
          "[Global]\nfixed=/d/f.nrrd\nmoving=/d/m.nrrd\nimage_out=/d/o.nrrd\n\n[Stage]\nxform=bspline\n\n",
        Effect.spawn ["plastimatch", "register", "/d/parm.txt"]], none) :=
  ⟨⟨by decide, by decide, by decide⟩,
    register_persists_parm_txt
      [("fixed", "/d/f.nrrd"), ("moving", "/d/m.nrrd"), ("image_out", "/d/o.nrrd")]
      [[("xform", "bspline")]] (by decide) (by decide) (by decide)⟩

/-- Claim C8: registration spawns exactly
`["plastimatch", "register", parm.txt path]`; conversion spawns exactly
`["plastimatch", "convert", input, output]`, with `["--xf", transform]`
appended precisely when a transform is supplied (the resolved transform
path is never the empty string, so it is always truthy). -/
theorem plastimatch_command_vectors (gp : List (String × String))
    (sps : List (List (String × String))) (sd pin pout xfv : String)
    (h1 : ((filterParams globalParamPossibleKeyList gp).map Prod.fst).contains
      "fixed" = true)
    (h2 : ((filterParams globalParamPossibleKeyList gp).map Prod.fst).contains
      "moving" = true)
    (h3 : ((filterParams globalParamPossibleKeyList gp).map Prod.fst).contains
      "image_out" = true) :
    (∃ d txt, registerRun gp sps =
      ([Effect.mkdirParents d, Effect.writeFile (joinPath d "parm.txt") txt,
        Effect.spawn ["plastimatch", "register", joinPath d "parm.txt"]],
        none)) ∧
    convert_api sd pin pout none =
      ["plastimatch", "convert", resolvePath sd pin, resolvePath sd pout] ∧
    convert_api sd pin pout (some xfv) =
      ["plastimatch", "convert", resolvePath sd pin, resolvePath sd pout,
        "--xf", resolvePath sd xfv] := by
  refine ⟨⟨_, _, registerRun_success gp sps h1 h2 h3⟩, ?_, ?_⟩
  · simp [convert_api, convertCommand, pyTruthy]
  · have hne : resolvePath sd xfv ≠ "" := resolvePath_ne_empty sd xfv
    simp [convert_api, convertCommand, pyTruthy, hne]

/-- Witness for C8. -/
theorem plastimatch_command_vectors_witness :
    (((filterParams globalParamPossibleKeyList
        [("fixed", "f"), ("moving", "m"), ("image_out", "o")]).map
          Prod.fst).contains "fixed" = true ∧
      ((filterParams globalParamPossibleKeyList
        [("fixed", "f"), ("moving", "m"), ("image_out", "o")]).map
          Prod.fst).contains "moving" = true ∧
      ((filterParams globalParamPossibleKeyList
        [("fixed", "f"), ("moving", "m"), ("image_out", "o")]).map
          Prod.fst).contains "image_out" = true) ∧
    ((∃ d txt, registerRun [("fixed", "f"), ("moving", "m"), ("image_out", "o")] [] =
      ([Effect.mkdirParents d, Effect.writeFile (joinPath d "parm.txt") txt,
        Effect.spawn ["plastimatch", "register", joinPath d "parm.txt"]],
        none)) ∧
    convert_api "/app" "in.nrrd" "out.nrrd" none =
      ["plastimatch", "convert", resolvePath "/app" "in.nrrd",
        resolvePath "/app" "out.nrrd"] ∧
    convert_api "/app" "in.nrrd" "out.nrrd" (some "vf.nrrd") =
      ["plastimatch", "convert", resolvePath "/app" "in.nrrd",
        resolvePath "/app" "out.nrrd", "--xf", resolvePath "/app" "vf.nrrd"]) :=
  ⟨⟨by decide, by decide, by decide⟩,
    plastimatch_command_vectors [("fixed", "f"), ("moving", "m"), ("image_out", "o")]
      [] "/app" "in.nrrd" "out.nrrd" "vf.nrrd" (by decide) (by decide) (by decide)⟩

/-- Claim C9: on both plastimatch endpoints a non-zero exit status of the
external process is printed and swallowed, never raised, and the endpoint
returns no structured body on success or failure. -/
theorem process_failure_swallowed_no_body (code : Int) :
    ((registerInvoke code).2 = Except.ok none ∧
      (convertInvoke code).2 = Except.ok none) ∧
    (code = 0 → (registerInvoke code).1 = [] ∧ (convertInvoke code).1 = []) ∧
    (code ≠ 0 →
      (registerInvoke code).1 = [pyExcMessage (PyExc.calledProcessError code)] ∧
      (convertInvoke code).1 =
        ["Error occurred while running plastimatch convert: " ++
          pyExcMessage (PyExc.calledProcessError code)]) := by
  by_cases h : code = 0 <;>
    simp [registerInvoke, convertInvoke, subprocessRunCheck, h]

/-- Witness for C9 at exit code 3. -/
theorem process_failure_swallowed_no_body_witness :
    (3 : Int) ≠ 0 ∧
    (((registerInvoke 3).2 = Except.ok none ∧
        (convertInvoke 3).2 = Except.ok none) ∧
      ((3 : Int) = 0 → (registerInvoke 3).1 = [] ∧ (convertInvoke 3).1 = []) ∧
      ((3 : Int) ≠ 0 →
        (registerInvoke 3).1 = [pyExcMessage (PyExc.calledProcessError 3)] ∧
        (convertInvoke 3).1 =
          ["Error occurred while running plastimatch convert: " ++
            pyExcMessage (PyExc.calledProcessError 3)])) :=
  ⟨by decide, process_failure_swallowed_no_body 3⟩

/-- Claim C10: the `/plastimatch_register` handler prints
`global_params["vf_out"]` before calling `register`, so a request carrying
the three required keys but no "vf_out" dies with a `KeyError` and an empty
effect trace, even though the documented validation of `register` (which
does not require "vf_out") would have accepted it. -/
theorem register_api_keyerror_vf_out (gp : List (String × String))
    (sps : List (List (String × String)))
    (h1 : (gp.lookup "fixed").isSome = true)
    (h2 : (gp.lookup "moving").isSome = true)
    (h3 : (gp.lookup "image_out").isSome = true)
    (h4 : gp.lookup "vf_out" = none) :
    register_api gp sps = ([], some (ApiError.keyError "vf_out")) ∧
    (registerRun gp sps).2 = none := by
  obtain ⟨a, ha⟩ := Option.isSome_iff_exists.mp h1
  obtain ⟨b, hb⟩ := Option.isSome_iff_exists.mp h2
  obtain ⟨c, hc⟩ := Option.isSome_iff_exists.mp h3
  constructor
  · simp [register_api, ha, hb, hc, h4]
  · have hg1 := keys_filterParams_contains globalParamPossibleKeyList "fixed"
      (by decide) gp h1
    have hg2 := keys_filterParams_contains globalParamPossibleKeyList "moving"
      (by decide) gp h2
    have hg3 := keys_filterParams_contains globalParamPossibleKeyList "image_out"
      (by decide) gp h3
    rw [registerRun_success gp sps hg1 hg2 hg3]

/-- Witness for C10. -/
theorem register_api_keyerror_vf_out_witness :
    ((([("fixed", "f"), ("moving", "m"), ("image_out", "o")] :
        List (String × String)).lookup "fixed").isSome = true ∧
      (([("fixed", "f"), ("moving", "m"), ("image_out", "o")] :
        List (String × String)).lookup "moving").isSome = true ∧
      (([("fixed", "f"), ("moving", "m"), ("image_out", "o")] :
        List (String × String)).lookup "image_out").isSome = true ∧
      ([("fixed", "f"), ("moving", "m"), ("image_out", "o")] :
        List (String × String)).lookup "vf_out" = none) ∧
    (register_api [("fixed", "f"), ("moving", "m"), ("image_out", "o")] [] =
        ([], some (ApiError.keyError "vf_out")) ∧
      (registerRun [("fixed", "f"), ("moving", "m"), ("image_out", "o")] []).2 =
        none) :=
  ⟨⟨by decide, by decide, by decide, by decide⟩,
    register_api_keyerror_vf_out [("fixed", "f"), ("moving", "m"), ("image_out", "o")]
      [] (by decide) (by decide) (by decide) (by decide)⟩
